import Mathlib

/-!
Shallow embedding of `src/body/body_modifier.go` from the martian proxy
repository: the response-body override modifier.

The Go file defines
  * `Modifier` (a content type plus raw body bytes),
  * `modifierFromJSON` (configuration decoding: JSON unmarshalling into
    `modifierJSON`, base64 decoding of the `body` field, construction),
  * `ModifyRequest` (sets the skip-round-trip flag on the context),
  * `ModifyResponse` (closes the old body stream, overwrites the
    `Content-Type` header, deletes `Content-Encoding`, sets the content
    length and installs a fresh reader over the stored body bytes).

Bytes are modelled as `Nat` (values < 256 by construction of the base64
decoder).  Go mutation is modelled by explicit state passing: each hook
returns the (possibly updated) receiver, context and request/response,
together with the Go `error` result (`Option String`, `none` = nil).
A Go panic (nil-pointer dereference) is modelled by an outer `Option`
returning `none`.
-/

/-- Error taxonomy of the configuration decoder: `malformedConfig` models a
`json.Unmarshal` error (document does not match the `modifierJSON` shape),
`invalidEncoding` models a `base64.CorruptInputError` from
`base64.StdEncoding.DecodeString`. -/
inductive DecodeError where
  | malformedConfig
  | invalidEncoding
  deriving DecidableEq, Repr

/-! ### Base64 decoding (`encoding/base64`, `StdEncoding.DecodeString`) -/

/-- Value of one character of the standard base64 alphabet
(`A`–`Z`, `a`–`z`, `0`–`9`, `+`, `/`); `none` for anything else,
including the padding character `=`. -/
def base64CharVal (c : Char) : Option Nat :=
  if 'A' ≤ c ∧ c ≤ 'Z' then some (c.toNat - 'A'.toNat)
  else if 'a' ≤ c ∧ c ≤ 'z' then some (c.toNat - 'a'.toNat + 26)
  else if '0' ≤ c ∧ c ≤ '9' then some (c.toNat - '0'.toNat + 52)
  else if c = '+' then some 62
  else if c = '/' then some 63
  else none

/-- Decode a run of 4-character base64 quanta.  Mirrors the quantum loop of
Go's `base64.StdEncoding` decoder: each quantum yields 3 bytes, except a
final quantum ending in `=` padding, which yields 1 byte (`xx==`) or
2 bytes (`xxx=`); padding anywhere else, a dangling quantum, or a
character outside the alphabet is a `CorruptInputError` (`none`). -/
def base64DecodeQuanta : List Char → Option (List Nat)
  | [] => some []
  | c0 :: c1 :: c2 :: c3 :: rest =>
    match base64CharVal c0, base64CharVal c1 with
    | some v0, some v1 =>
      if c2 = '=' then
        if c3 = '=' ∧ rest = [] then some [v0 * 4 + v1 / 16]
        else none
      else
        match base64CharVal c2 with
        | some v2 =>
          if c3 = '=' then
            if rest = [] then some [v0 * 4 + v1 / 16, v1 % 16 * 16 + v2 / 4]
            else none
          else
            match base64CharVal c3 with
            | some v3 =>
              (base64DecodeQuanta rest).map
                (fun tail =>
                  (v0 * 4 + v1 / 16) :: (v1 % 16 * 16 + v2 / 4) ::
                    (v2 % 4 * 64 + v3) :: tail)
            | none => none
        | none => none
    | _, _ => none
  | _ => none

/-- Models `base64.StdEncoding.DecodeString`: the Go decoder first skips newline
characters (`\r`, `\n`), then decodes 4-character quanta. -/
def base64DecodeString (s : String) : Option (List Nat) :=
  base64DecodeQuanta (s.data.filter (fun c => c ≠ '\r' ∧ c ≠ '\n'))

/-! ### JSON documents and `json.Unmarshal` into `modifierJSON` -/

/-- A parsed JSON document (`encoding/json` value space; numbers as `Int`,
which is enough for this package — no field of `modifierJSON` is numeric). -/
inductive JVal where
  | jnull
  | jbool (b : Bool)
  | jnum (n : Int)
  | jstr (s : String)
  | jarr (elems : List JVal)
  | jobj (fields : List (String × JVal))

/-- The `modifierJSON` struct: `ContentType string`, `Body string`
(base64 text), `Scope []parse.ModifierType`.  Go zero values are the
defaults. -/
structure ModifierJSON where
  contentType : String := ""
  body : String := ""
  scope : List String := []
  deriving DecidableEq, Repr

/-- Lower-case an ASCII letter code point, identity elsewhere. -/
def asciiLower (n : Nat) : Nat :=
  if 65 ≤ n ∧ n ≤ 90 then n + 32 else n

/-- ASCII-case-insensitive key matching, modelling `encoding/json`'s
field-name folding when matching object keys to struct tags. -/
def jsonKeyMatch (k tag : String) : Bool :=
  k.data.map (fun c => asciiLower c.toNat) ==
    tag.data.map (fun c => asciiLower c.toNat)

/-- Decode a JSON array into a `[]parse.ModifierType` (a string slice):
every element must be a string (`null` leaves the zero value `""`);
any other element type is an `UnmarshalTypeError`. -/
def decodeScopeElems : List JVal → Option (List String)
  | [] => some []
  | JVal.jstr s :: rest => (decodeScopeElems rest).map (fun r => s :: r)
  | JVal.jnull :: rest => (decodeScopeElems rest).map (fun r => "" :: r)
  | _ => none

/-- Store one JSON object member into the `modifierJSON` struct, as
`json.Unmarshal` does: a key matching a field tag must carry a value of
the field's type (`null` is a no-op), an unknown key is ignored, a type
mismatch is an unmarshalling error. -/
def setField (m : ModifierJSON) (k : String) (v : JVal) :
    Except DecodeError ModifierJSON :=
  if jsonKeyMatch k "contentType" then
    match v with
    | JVal.jstr s => Except.ok { m with contentType := s }
    | JVal.jnull => Except.ok m
    | _ => Except.error DecodeError.malformedConfig
  else if jsonKeyMatch k "body" then
    match v with
    | JVal.jstr s => Except.ok { m with body := s }
    | JVal.jnull => Except.ok m
    | _ => Except.error DecodeError.malformedConfig
  else if jsonKeyMatch k "scope" then
    match v with
    | JVal.jarr xs =>
      match decodeScopeElems xs with
      | some sc => Except.ok { m with scope := sc }
      | none => Except.error DecodeError.malformedConfig
    | JVal.jnull => Except.ok m
    | _ => Except.error DecodeError.malformedConfig
  else Except.ok m

/-- Apply the members of a JSON object to the struct in order (later
duplicates override earlier ones, as in `encoding/json`). -/
def applyFields : ModifierJSON → List (String × JVal) →
    Except DecodeError ModifierJSON
  | m, [] => Except.ok m
  | m, (k, v) :: rest =>
    match setField m k v with
    | Except.error e => Except.error e
    | Except.ok m' => applyFields m' rest

/-- Models `json.Unmarshal(b, &modifierJSON\x7b\x7d)`: the document must be an object
(or `null`, a no-op); absent fields keep their Go zero values. -/
def unmarshalModifierJSON : JVal → Except DecodeError ModifierJSON
  | JVal.jobj fs => applyFields {} fs
  | JVal.jnull => Except.ok {}
  | _ => Except.error DecodeError.malformedConfig

/-! ### Modifier and parse.Result -/

/-- The `body.Modifier` struct: substitutes the body on an HTTP response.
Fields are set once at construction and never written again. -/
structure Modifier where
  contentType : String
  body : List Nat
  deriving DecidableEq, Repr

/-- Go `NewModifier` constructs and returns a `body.Modifier`; its error
result is always nil. -/
def NewModifier (b : List Nat) (contentType : String) :
    Except DecodeError Modifier :=
  Except.ok { contentType := contentType, body := b }

/-- Modelled from the spec: `parse.Result` (the `parse` package is not in
`src/`), the generic "modifier + scope" pair handed to the chain
dispatcher. -/
structure ParseResult where
  modifier : Modifier
  scope : List String
  deriving DecidableEq, Repr

/-- Modelled from the spec: `parse.NewResult` (the `parse` package is not
in `src/`) wraps the modifier with its declared scope; the spec's decoder
contract defines no failure at this step — the scope set is "interpreted
entirely by the external chain dispatcher, not by the Modifier itself". -/
def NewResult (m : Modifier) (scope : List String) :
    Except DecodeError ParseResult :=
  Except.ok { modifier := m, scope := scope }

/-- Go `modifierFromJSON`: unmarshal the document, base64-decode the `body`
field, construct the `Modifier`, and wrap it with the scope.  Each
fallible step returns its error unchanged, exactly as the Go `if err`
chain does. -/
def modifierFromJSON (doc : JVal) : Except DecodeError ParseResult :=
  match unmarshalModifierJSON doc with
  | Except.error e => Except.error e
  | Except.ok msg =>
    match base64DecodeString msg.body with
    | none => Except.error DecodeError.invalidEncoding
    | some body =>
      match NewModifier body msg.contentType with
      | Except.error e => Except.error e
      | Except.ok mod => NewResult mod msg.scope

/-! ### HTTP transaction objects and the two hooks -/

/-- An `http.Header`: a map from canonical-MIME-form keys to value lists; an
absent key is modelled as the empty list (`Del` removes the key, `Get` on
an absent key yields `""`). -/
def HttpHeader : Type := String → List String

/-- Models `Header.Set`: replace all values of `key` with the single `value`. -/
def headerSet (h : HttpHeader) (key value : String) : HttpHeader :=
  fun k => if k = key then [value] else h k

/-- Models `Header.Del`: remove `key`. -/
def headerDel (h : HttpHeader) (key : String) : HttpHeader :=
  fun k => if k = key then [] else h k

/-- Models `Header.Get`: first value of `key`, or `""` when absent. -/
def headerGet (h : HttpHeader) (key : String) : String :=
  match h key with
  | [] => ""
  | v :: _ => v

/-- An `io.ReadCloser` body stream: the bytes it reads from the start,
and whether it has been closed. -/
structure BodyStream where
  data : List Nat
  closed : Bool

/-- Calling `Close()` on a body stream. -/
def closeBody (s : BodyStream) : BodyStream :=
  { s with closed := true }

/-- Models `ioutil.NopCloser(bytes.NewReader(bs))`: a fresh open reader over
`bs`, re-readable from the start, independent per invocation. -/
def nopCloser (bs : List Nat) : BodyStream :=
  { data := bs, closed := false }

/-- Modelled from the spec: `martian.Context` (the `martian` root package
is not in `src/`), the per-transaction mutable flag storage carrying the
`SkipRoundTrip` boolean the request hook sets. -/
structure Context where
  skipRoundTrip : Bool
  deriving DecidableEq, Repr

/-- The fields of `http.Request` the hooks can reach; `ModifyRequest`
touches none of them. -/
structure Request where
  method : String
  url : String
  header : HttpHeader

/-- The fields of `http.Response` (Go 1.x `net/http`) reachable from
`ModifyResponse`: the hook writes `Header`, `ContentLength` and `Body`
and reads nothing else.  `body` is an `Option` because the Go field is a
nil-able interface. -/
structure Response where
  status : String
  statusCode : Nat
  proto : String
  protoMajor : Nat
  protoMinor : Nat
  header : HttpHeader
  body : Option BodyStream
  contentLength : Int
  transferEncoding : List String
  close : Bool
  trailer : HttpHeader

/-- Result state of `ModifyRequest`: the receiver, context and request
after the call, plus the Go `error` result. -/
structure ReqHookResult where
  m : Modifier
  ctx : Context
  req : Request
  err : Option String

/-- Result state of `ModifyResponse`: the receiver, context and response
after the call, the prior body stream after its `Close()` call (recorded
so the release of the old stream is observable), and the Go `error`
result. -/
structure ResHookResult where
  m : Modifier
  ctx : Context
  res : Response
  priorBody : BodyStream
  err : Option String

/-- Go `ModifyRequest` signals the proxy to skip the round trip:
`ctx.SkipRoundTrip = true; return nil`.  Nothing else is written. -/
def ModifyRequest (m : Modifier) (ctx : Context) (req : Request) :
    ReqHookResult :=
  { m := m, ctx := { ctx with skipRoundTrip := true }, req := req,
    err := none }

/-- Go `ModifyResponse` closes the existing body (`res.Body.Close()` — with
no nil guard, so a nil body stream is a nil-pointer dereference, modelled
as `none`), sets the `Content-Type` header, deletes `Content-Encoding`,
sets `ContentLength` to the stored body's length and installs a fresh
no-op-close reader over the stored body; `return nil`. -/
def ModifyResponse (m : Modifier) (ctx : Context) (res : Response) :
    Option ResHookResult :=
  match res.body with
  | none => none
  | some prev =>
    some { m := m, ctx := ctx,
           res := { res with
             header :=
               headerDel (headerSet res.header "Content-Type" m.contentType)
                 "Content-Encoding",
             contentLength := Int.ofNat m.body.length,
             body := some (nopCloser m.body) },
           priorBody := closeBody prev,
           err := none }

/-! ### Helper lemmas about the decoder -/

/-- Every error `setField` can produce is `malformedConfig`. -/
theorem setField_error_malformed (m : ModifierJSON) (k : String) (v : JVal)
    (e : DecodeError) (h : setField m k v = Except.error e) :
    e = DecodeError.malformedConfig := by
  unfold setField at h
  split_ifs at h <;> cases v <;> (repeat' split at h) <;> simp_all

/-- Every error `applyFields` can produce is `malformedConfig`. -/
theorem applyFields_error_malformed (fs : List (String × JVal)) :
    ∀ (m : ModifierJSON) (e : DecodeError),
    applyFields m fs = Except.error e → e = DecodeError.malformedConfig := by
  induction fs with
  | nil => intro m e h; simp [applyFields] at h
  | cons p rest ih =>
    intro m e h
    obtain ⟨k, v⟩ := p
    rw [applyFields] at h
    cases hsf : setField m k v with
    | error e' =>
      rw [hsf] at h
      cases h
      exact setField_error_malformed m k v e hsf
    | ok m' =>
      rw [hsf] at h
      exact ih m' e h

/-- Storing a member whose key does not match `contentType` leaves the
struct's `contentType` unchanged. -/
theorem setField_preserves_contentType (m m' : ModifierJSON) (k : String)
    (v : JVal) (hk : jsonKeyMatch k "contentType" = false)
    (h : setField m k v = Except.ok m') :
    m'.contentType = m.contentType := by
  unfold setField at h
  split_ifs at h <;> cases v <;> (repeat' split at h) <;> simp_all
  all_goals rw [← h]

/-- A member list with no `contentType`-matching key leaves the struct's
`contentType` unchanged. -/
theorem applyFields_preserves_contentType (fs : List (String × JVal)) :
    ∀ m msg : ModifierJSON,
    (∀ p ∈ fs, jsonKeyMatch p.1 "contentType" = false) →
    applyFields m fs = Except.ok msg → msg.contentType = m.contentType := by
  induction fs with
  | nil =>
    intro m msg _ h
    simp [applyFields] at h
    rw [← h]
  | cons p rest ih =>
    intro m msg hall h
    obtain ⟨k, v⟩ := p
    rw [applyFields] at h
    cases hsf : setField m k v with
    | error e => rw [hsf] at h; cases h
    | ok m' =>
      rw [hsf] at h
      have h1 := setField_preserves_contentType m m' k v
        (hall (k, v) (by simp)) hsf
      have h2 := ih m' msg (fun p hp => hall p (by simp [hp])) h
      rw [h2, h1]

/-! ### Concrete sample transaction objects used by the witnesses -/

/-- A sample modifier: `text/plain` with body `hello`. -/
def sampleMod : Modifier :=
  { contentType := "text/plain", body := [104, 101, 108, 108, 111] }

/-- A sample open upstream body stream. -/
def sampleBody : BodyStream := { data := [1, 2, 3], closed := false }

/-- A sample header set carrying a `Content-Encoding` and an unrelated
custom header. -/
def sampleHeader : HttpHeader := fun k =>
  if k = "Content-Encoding" then ["gzip"]
  else if k = "X-Custom" then ["v"]
  else []

/-- A sample upstream response with an open body. -/
def sampleRes : Response :=
  { status := "200 OK", statusCode := 200, proto := "HTTP/1.1",
    protoMajor := 1, protoMinor := 1, header := sampleHeader,
    body := some sampleBody, contentLength := 3, transferEncoding := [],
    close := false, trailer := fun _ => [] }

/-- A sample request. -/
def sampleReq : Request :=
  { method := "GET", url := "http://example.com/", header := fun _ => [] }

/-- The hook-result state of running `ModifyResponse sampleMod` on
`sampleRes`. -/
def sampleOut : ResHookResult :=
  { m := sampleMod, ctx := { skipRoundTrip := false },
    res := { sampleRes with
             header := headerDel
               (headerSet sampleRes.header "Content-Type" "text/plain")
               "Content-Encoding",
             contentLength := Int.ofNat 5,
             body := some (nopCloser [104, 101, 108, 108, 111]) },
    priorBody := closeBody sampleBody, err := none }

/-- A sample response whose body-stream slot is nil. -/
def sampleResNilBody : Response := { sampleRes with body := none }

/-! ### The claims -/

/-- C1: for every string `s` that is valid standard base64, decoding a
configuration whose `body` field is `s` and then invoking `ModifyResponse`
on a response yields a response whose body stream reads exactly the bytes
`base64_decode(s)` (a fresh open reader over them) and whose
`ContentLength` field equals the length of `base64_decode(s)`. -/
theorem decode_then_modifyResponse_body (ct s : String) (bs : List Nat)
    (ctx : Context) (res : Response) (prev : BodyStream)
    (hdec : base64DecodeString s = some bs)
    (hbody : res.body = some prev) :
    ∃ (r : ParseResult) (out : ResHookResult),
      modifierFromJSON
        (JVal.jobj [("contentType", JVal.jstr ct), ("body", JVal.jstr s)]) =
        Except.ok r ∧
      ModifyResponse r.modifier ctx res = some out ∧
      out.res.body = some { data := bs, closed := false } ∧
      out.res.contentLength = Int.ofNat bs.length := by
  have hun : unmarshalModifierJSON
      (JVal.jobj [("contentType", JVal.jstr ct), ("body", JVal.jstr s)]) =
      Except.ok { contentType := ct, body := s, scope := [] } := rfl
  refine ⟨{ modifier := { contentType := ct, body := bs }, scope := [] },
    { m := { contentType := ct, body := bs }, ctx := ctx,
      res := { res with
               header := headerDel (headerSet res.header "Content-Type" ct)
                 "Content-Encoding",
               contentLength := Int.ofNat bs.length,
               body := some (nopCloser bs) },
      priorBody := closeBody prev, err := none }, ?_, ?_, ?_, ?_⟩
  · simp [modifierFromJSON, hun, hdec, NewModifier, NewResult]
  · simp [ModifyResponse, hbody]
  · simp [nopCloser]
  · rfl

/-- Witness for C1 at the spec's end-to-end scenario: `contentType`
`text/plain` and `body` `aGVsbG8=` (base64 of `hello`, 5 bytes). -/
theorem decode_then_modifyResponse_body_witness :
    ∃ (r : ParseResult) (out : ResHookResult),
      modifierFromJSON
        (JVal.jobj [("contentType", JVal.jstr "text/plain"),
          ("body", JVal.jstr "aGVsbG8=")]) =
        Except.ok r ∧
      ModifyResponse r.modifier { skipRoundTrip := false } sampleRes = some out ∧
      out.res.body = some { data := [104, 101, 108, 108, 111], closed := false } ∧
      out.res.contentLength = Int.ofNat 5 :=
  decode_then_modifyResponse_body "text/plain" "aGVsbG8="
    [104, 101, 108, 108, 111] { skipRoundTrip := false } sampleRes sampleBody
    rfl rfl

/-- C2: whenever `ModifyResponse` returns, the response's `Content-Type`
header equals exactly the modifier's configured `contentType`, and the
response carries no `Content-Encoding` header, regardless of whether one
was present before the call. -/
theorem modifyResponse_headers (m : Modifier) (ctx : Context) (res : Response)
    (out : ResHookResult) (h : ModifyResponse m ctx res = some out) :
    out.res.header "Content-Type" = [m.contentType] ∧
    out.res.header "Content-Encoding" = [] := by
  unfold ModifyResponse at h
  cases hb : res.body with
  | none => rw [hb] at h; cases h
  | some prev =>
    rw [hb] at h
    cases h
    constructor
    · simp [headerDel, headerSet]
    · simp [headerDel]

/-- Witness for C2: on `sampleRes`, which carried `Content-Encoding: gzip`
before the call, the hook sets `Content-Type: text/plain` and removes
`Content-Encoding`. -/
theorem modifyResponse_headers_witness :
    sampleOut.res.header "Content-Type" = ["text/plain"] ∧
    sampleOut.res.header "Content-Encoding" = [] :=
  modifyResponse_headers sampleMod { skipRoundTrip := false } sampleRes
    sampleOut rfl

/-- C3: the runtime hooks define no error: `ModifyRequest` always returns a
nil error, and every return of `ModifyResponse` carries a nil error (on a
nil body stream `ModifyResponse` does not return at all — it panics, see
the C10 theorem — but it never returns an error). -/
theorem hooks_return_nil_error :
    (∀ (m : Modifier) (ctx : Context) (req : Request),
      (ModifyRequest m ctx req).err = none) ∧
    (∀ (m : Modifier) (ctx : Context) (res : Response) (out : ResHookResult),
      ModifyResponse m ctx res = some out → out.err = none) := by
  constructor
  · intro m ctx req; rfl
  · intro m ctx res out h
    unfold ModifyResponse at h
    cases hb : res.body with
    | none => rw [hb] at h; cases h
    | some prev => rw [hb] at h; cases h; rfl

/-- Witness for C3: both hooks return a nil error on the sample
transaction. -/
theorem hooks_return_nil_error_witness :
    (ModifyRequest sampleMod { skipRoundTrip := false } sampleReq).err = none ∧
    sampleOut.err = none :=
  ⟨hooks_return_nil_error.1 sampleMod { skipRoundTrip := false } sampleReq,
    hooks_return_nil_error.2 sampleMod { skipRoundTrip := false } sampleRes
      sampleOut rfl⟩

/-- C4: for every configuration document that unmarshals into the
`modifierJSON` shape but whose `body` field is not valid standard base64
(with padding), the decoder fails with `InvalidEncoding` and produces no
modifier. -/
theorem invalid_base64_fails (doc : JVal) (msg : ModifierJSON)
    (hun : unmarshalModifierJSON doc = Except.ok msg)
    (hdec : base64DecodeString msg.body = none) :
    modifierFromJSON doc = Except.error DecodeError.invalidEncoding := by
  simp [modifierFromJSON, hun, hdec]

/-- Witness for C4 at the spec's example document with
`body = "not base64!!"`. -/
theorem invalid_base64_fails_witness :
    modifierFromJSON (JVal.jobj [("scope", JVal.jarr [JVal.jstr "response"]),
      ("contentType", JVal.jstr "text/plain"),
      ("body", JVal.jstr "not base64!!")]) =
    Except.error DecodeError.invalidEncoding :=
  invalid_base64_fails
    (JVal.jobj [("scope", JVal.jarr [JVal.jstr "response"]),
      ("contentType", JVal.jstr "text/plain"),
      ("body", JVal.jstr "not base64!!")])
    { contentType := "text/plain", body := "not base64!!",
      scope := ["response"] } rfl rfl

/-- Iterated invocation of `ModifyRequest` on the same transaction,
threading the mutated context and request through each call. -/
def modifyRequestIter (m : Modifier) :
    Nat → Context × Request → Context × Request
  | 0, s => s
  | n + 1, (ctx, req) =>
    let out := ModifyRequest m ctx req
    modifyRequestIter m n (out.ctx, out.req)

/-- A transaction whose flag is already set is a fixed point of
`ModifyRequest`. -/
theorem modifyRequestIter_fixed (m : Modifier) (req : Request) :
    ∀ n, modifyRequestIter m n ({ skipRoundTrip := true }, req) =
      ({ skipRoundTrip := true }, req) := by
  intro n
  induction n with
  | zero => rfl
  | succ k ih => rw [modifyRequestIter]; exact ih

/-- C5: `ModifyRequest` is idempotent — invoking it any number of times
(at least once) on the same transaction leaves the skip-round-trip flag
set to true and produces no other change to the context or the request. -/
theorem modifyRequest_idempotent (m : Modifier) (n : Nat) (ctx : Context)
    (req : Request) (h : 1 ≤ n) :
    modifyRequestIter m n (ctx, req) =
      ({ ctx with skipRoundTrip := true }, req) := by
  obtain ⟨k, rfl⟩ : ∃ k, n = k + 1 := ⟨n - 1, by omega⟩
  rw [modifyRequestIter]
  cases ctx
  exact modifyRequestIter_fixed m req k

/-- Witness for C5: three invocations on a fresh transaction leave the
flag true and the request untouched. -/
theorem modifyRequest_idempotent_witness :
    modifyRequestIter sampleMod 3 ({ skipRoundTrip := false }, sampleReq) =
      ({ skipRoundTrip := true }, sampleReq) :=
  modifyRequest_idempotent sampleMod 3 { skipRoundTrip := false } sampleReq
    (by decide)

/-- C6 counterexample: the document with all three fields missing does not
fail — it decodes successfully into a modifier with empty content type and
empty body, so "missing fields" do not cause a `MalformedConfig` error. -/
theorem missing_fields_decode_ok :
    modifierFromJSON (JVal.jobj []) =
      Except.ok { modifier := { contentType := "", body := [] }, scope := [] } ∧
    modifierFromJSON (JVal.jobj []) ≠
      Except.error DecodeError.malformedConfig :=
  ⟨rfl, fun h => by cases h⟩

/-- C6 amended: for every serialized configuration document on which the
structural deserialization fails (top level not an object, or a
`contentType`/`body`/`scope` field present with a mistyped value), the
decoder fails with `MalformedConfig` — the only unmarshalling error — and
produces no modifier; missing fields do not fail (they keep zero
values). -/
theorem malformed_doc_fails (doc : JVal) (e : DecodeError)
    (h : unmarshalModifierJSON doc = Except.error e) :
    e = DecodeError.malformedConfig ∧
    modifierFromJSON doc = Except.error DecodeError.malformedConfig := by
  have he : e = DecodeError.malformedConfig := by
    cases doc with
    | jobj fs => exact applyFields_error_malformed fs {} e h
    | jnull => cases h
    | _ => unfold unmarshalModifierJSON at h; cases h; rfl
  subst he
  exact ⟨rfl, by simp [modifierFromJSON, h]⟩

/-- Witness for C6 at a document whose `body` field is mistyped (a
number). -/
theorem malformed_doc_fails_witness :
    modifierFromJSON (JVal.jobj [("body", JVal.jnum 5)]) =
      Except.error DecodeError.malformedConfig :=
  (malformed_doc_fails (JVal.jobj [("body", JVal.jnum 5)])
    DecodeError.malformedConfig rfl).2

/-- C7: a configuration document in which the `contentType` field is
entirely absent (no member key matches it) still decodes successfully —
provided the rest of the document unmarshals and its `body` is valid
base64 — producing a modifier whose content type is the empty string. -/
theorem absent_contentType_defaults_empty (fs : List (String × JVal))
    (msg : ModifierJSON) (bs : List Nat)
    (habs : ∀ p ∈ fs, jsonKeyMatch p.1 "contentType" = false)
    (hun : unmarshalModifierJSON (JVal.jobj fs) = Except.ok msg)
    (hdec : base64DecodeString msg.body = some bs) :
    msg.contentType = "" ∧
    modifierFromJSON (JVal.jobj fs) =
      Except.ok { modifier := { contentType := "", body := bs },
                  scope := msg.scope } := by
  have hct : msg.contentType = "" := by
    rw [unmarshalModifierJSON] at hun
    exact applyFields_preserves_contentType fs {} msg habs hun
  refine ⟨hct, ?_⟩
  simp [modifierFromJSON, hun, hdec, NewModifier, NewResult, hct]

/-- Witness for C7 at the document carrying only a `body` field. -/
theorem absent_contentType_defaults_empty_witness :
    ({ contentType := "", body := "aGVsbG8=", scope := [] } :
      ModifierJSON).contentType = "" ∧
    modifierFromJSON (JVal.jobj [("body", JVal.jstr "aGVsbG8=")]) =
      Except.ok { modifier := { contentType := "",
                                body := [104, 101, 108, 108, 111] },
                  scope := [] } :=
  absent_contentType_defaults_empty [("body", JVal.jstr "aGVsbG8=")]
    { contentType := "", body := "aGVsbG8=", scope := [] }
    [104, 101, 108, 108, 111] (by decide) rfl rfl

/-- C8: `ModifyResponse` changes only the body stream, the content length
and the `Content-Type`/`Content-Encoding` headers; every other header and
every other field of the response (and the context) is left unchanged. -/
theorem modifyResponse_frame (m : Modifier) (ctx : Context) (res : Response)
    (out : ResHookResult) (h : ModifyResponse m ctx res = some out) :
    out.res.status = res.status ∧ out.res.statusCode = res.statusCode ∧
    out.res.proto = res.proto ∧ out.res.protoMajor = res.protoMajor ∧
    out.res.protoMinor = res.protoMinor ∧
    out.res.transferEncoding = res.transferEncoding ∧
    out.res.close = res.close ∧ out.res.trailer = res.trailer ∧
    out.ctx = ctx ∧
    ∀ k, k ≠ "Content-Type" → k ≠ "Content-Encoding" →
      out.res.header k = res.header k := by
  unfold ModifyResponse at h
  cases hb : res.body with
  | none => rw [hb] at h; cases h
  | some prev =>
    rw [hb] at h
    cases h
    refine ⟨rfl, rfl, rfl, rfl, rfl, rfl, rfl, rfl, rfl, ?_⟩
    intro k h1 h2
    simp [headerDel, headerSet, h1, h2]

/-- Witness for C8: the status code and the unrelated `X-Custom` header of
`sampleRes` survive the hook unchanged. -/
theorem modifyResponse_frame_witness :
    sampleOut.res.statusCode = sampleRes.statusCode ∧
    sampleOut.res.header "X-Custom" = sampleRes.header "X-Custom" :=
  ⟨(modifyResponse_frame sampleMod { skipRoundTrip := false } sampleRes
      sampleOut rfl).2.1,
    (modifyResponse_frame sampleMod { skipRoundTrip := false } sampleRes
      sampleOut rfl).2.2.2.2.2.2.2.2.2 "X-Custom" (by decide) (by decide)⟩

/-- C9: a modifier is immutable — neither hook changes its `contentType`
or `body` fields (the receiver coming out of a hook call equals the
receiver going in). -/
theorem modifier_fields_immutable :
    (∀ (m : Modifier) (ctx : Context) (req : Request),
      (ModifyRequest m ctx req).m = m) ∧
    (∀ (m : Modifier) (ctx : Context) (res : Response) (out : ResHookResult),
      ModifyResponse m ctx res = some out → out.m = m) := by
  constructor
  · intro m ctx req; rfl
  · intro m ctx res out h
    unfold ModifyResponse at h
    cases hb : res.body with
    | none => rw [hb] at h; cases h
    | some prev => rw [hb] at h; cases h; rfl

/-- Witness for C9: the sample modifier is unchanged by both hooks. -/
theorem modifier_fields_immutable_witness :
    (ModifyRequest sampleMod { skipRoundTrip := false } sampleReq).m =
      sampleMod ∧
    sampleOut.m = sampleMod :=
  ⟨modifier_fields_immutable.1 sampleMod { skipRoundTrip := false } sampleReq,
    modifier_fields_immutable.2 sampleMod { skipRoundTrip := false } sampleRes
      sampleOut rfl⟩

/-- C10: `ModifyResponse` closes the prior body stream unconditionally
before replacing it, with no nil guard: on a response whose body-stream
slot is nil the close step faults (nil-pointer panic, the hook does not
return), and on every response with a non-nil body stream the hook is
safe and the prior stream comes out closed. -/
theorem modifyResponse_closes_prior_no_nil_guard (m : Modifier)
    (ctx : Context) (res : Response) :
    (res.body = none → ModifyResponse m ctx res = none) ∧
    ∀ prev, res.body = some prev →
      ∃ out, ModifyResponse m ctx res = some out ∧
        out.priorBody = closeBody prev ∧ out.priorBody.closed = true := by
  constructor
  · intro hb; unfold ModifyResponse; rw [hb]
  · intro prev hb
    refine ⟨{ m := m, ctx := ctx,
              res := { res with
                       header := headerDel
                         (headerSet res.header "Content-Type" m.contentType)
                         "Content-Encoding",
                       contentLength := Int.ofNat m.body.length,
                       body := some (nopCloser m.body) },
              priorBody := closeBody prev, err := none }, ?_, rfl, rfl⟩
    unfold ModifyResponse
    rw [hb]

/-- Witness for C10: the hook faults on the nil-body sample response and
succeeds on `sampleRes`, closing its prior stream. -/
theorem modifyResponse_closes_prior_no_nil_guard_witness :
    ModifyResponse sampleMod { skipRoundTrip := false } sampleResNilBody =
      none ∧
    ∃ out, ModifyResponse sampleMod { skipRoundTrip := false } sampleRes =
        some out ∧
      out.priorBody = closeBody sampleBody ∧ out.priorBody.closed = true :=
  ⟨(modifyResponse_closes_prior_no_nil_guard sampleMod
      { skipRoundTrip := false } sampleResNilBody).1 rfl,
    (modifyResponse_closes_prior_no_nil_guard sampleMod
      { skipRoundTrip := false } sampleRes).2 sampleBody rfl⟩
